import Mathlib

set_option linter.unusedVariables false

/-! Verification development for the repository's streamable HTTP server
transport (`StreamableHTTPServerTransport`).  The transport implementation
file itself (src/server/streamableHttp.ts) is not among the provided
sources — only its test suite is — so the transport is modelled from the
natural-language specification (spec.md §3–§6), with concrete constants
(such as the standalone stream id sentinel `"standalonesse"`) pinned by the
assertions of the test suite. -/

/-- JSON-RPC request ids.  The test suite uses string ids throughout. -/
abbrev RequestId := String

/-- Modelled from the spec: the JSON-RPC message shapes the transport
distinguishes (spec §1 non-goals): requests (have an `id` and a `method`),
notifications (`method`, no `id`), responses (`id` + `result`) and error
replies (`id` + `error`).  Result payloads are abstracted to strings. -/
inductive JSONRPCMessage where
  | request (id : RequestId) (method : String)
  | notification (method : String)
  | response (id : RequestId) (result : String)
  | errorReply (id : RequestId) (code : Int) (message : String)
deriving DecidableEq, Repr

/-- A message is a JSON-RPC request iff it carries an id and a method. -/
def isJSONRPCRequest : JSONRPCMessage → Bool
  | .request _ _ => true
  | _ => false

/-- A message is the `initialize` request that bootstraps a session. -/
def isInitializeRequest : JSONRPCMessage → Bool
  | .request _ m => m = "initialize"
  | _ => false

/-- A message is a response or error reply (has `id` plus result/error). -/
def isResponseOrError : JSONRPCMessage → Bool
  | .response _ _ => true
  | .errorReply _ _ _ => true
  | _ => false

/-- A message is a notification (no id). -/
def isNotificationMsg : JSONRPCMessage → Bool
  | .notification _ => true
  | _ => false

/-- The request id carried by a message, when it is a request. -/
def requestIdOf : JSONRPCMessage → Option RequestId
  | .request id _ => some id
  | _ => none

/-- Modelled from the spec: stream identifiers (spec §3).  The transport has
one standalone GET stream under a fixed sentinel id and one fresh stream id
per POST carrying requests (a UUID in the source, modelled as a counter).
The sentinel renders as the literal string `"standalonesse"`, the value the
test suite asserts event ids start with. -/
inductive StreamId where
  | standalone
  | post (n : Nat)
deriving DecidableEq, Repr

/-- The string form of a stream id. -/
def StreamId.render : StreamId → String
  | .standalone => "standalonesse"
  | .post n => "poststream" ++ toString n

/-- The sentinel stream id of the standalone GET stream. -/
def standaloneSseStreamId : StreamId := StreamId.standalone

/-- Modelled from the spec: event ids (spec §3).  An event id is unique per
transport lifetime and parseable to recover its stream id; the reference
format is `"<streamId>_<uuid>"`, modelled as the stream id paired with a
per-store sequence number. -/
structure EventId where
  streamId : StreamId
  seq : Nat
deriving DecidableEq, Repr

/-- The string form of an event id, `"<streamId>_<seq>"`. -/
def EventId.render (e : EventId) : String :=
  e.streamId.render ++ "_" ++ toString e.seq

/-- One event persisted by the event store: the event id (which records the
stream id) together with the message. -/
structure StoredEvent where
  eventId : EventId
  message : JSONRPCMessage
deriving DecidableEq, Repr

/-- Modelled from the spec: the state of the event store collaborator
(spec §6): the list of stored events in write order plus the counter that
makes fresh event ids unique. -/
structure EventStoreState where
  events : List StoredEvent
  counter : Nat
deriving DecidableEq, Repr

/-- Modelled from the spec: `storeEvent(streamId, message) → eventId`
(spec §6): persist the event and return a fresh unique id parseable to the
stream id. -/
def storeEvent (store : EventStoreState) (sid : StreamId) (msg : JSONRPCMessage) :
    EventId × EventStoreState :=
  let eid : EventId := ⟨sid, store.counter⟩
  (eid, ⟨store.events ++ [⟨eid, msg⟩], store.counter + 1⟩)

/-- Modelled from the spec: `replayEventsAfter(lastEventId, {send})`
(spec §6): iterate stored events with the same stream id, in original
order, skipping `lastEventId` and earlier; the pairs handed to `send` are
returned together with the recovered stream id.  `none` when the given
event id is unknown. -/
def replayEventsAfter (lid : EventId) :
    List StoredEvent → Option (StreamId × List (EventId × JSONRPCMessage))
  | [] => none
  | e :: rest =>
    if e.eventId = lid then
      some (lid.streamId,
        (rest.filter (fun x => x.eventId.streamId = lid.streamId)).map
          (fun x => (x.eventId, x.message)))
    else replayEventsAfter lid rest

/-- One SSE frame written on a response stream: the optional `id:` field
and the `data:` message (spec §4.6). -/
structure Frame where
  eventId : Option EventId
  message : JSONRPCMessage
deriving DecidableEq, Repr

/-- The final body of an HTTP response that is not a bare event stream.
`jsonError code msg` stands for the envelope
`{"jsonrpc":"2.0","error":{"code":code,"message":msg},"id":null}`
(spec §6, error mapping). -/
inductive RespBody where
  | empty
  | jsonError (code : Int) (message : String)
  | jsonSingle (m : JSONRPCMessage)
  | jsonBatch (ms : List JSONRPCMessage)
deriving DecidableEq, Repr

/-- The observable state of one HTTP response connection owned by the
transport: status and headers once written, the SSE frames written so far,
the final JSON body if any, and whether the response has ended. -/
structure Connection where
  status : Option Nat := none
  headers : List (String × String) := []
  frames : List Frame := []
  body : Option RespBody := none
  ended : Bool := false
deriving DecidableEq, Repr

/-- An incoming HTTP request as the transport sees it: method, the media
types listed in the Accept header, whether Content-Type begins with
application/json, the `mcp-session-id` and `last-event-id` headers, and
the (pre-parsed) JSON-RPC body. -/
structure HttpRequest where
  method : String
  accept : List String
  contentTypeJson : Bool
  sessionIdHeader : Option String
  lastEventId : Option EventId
  body : List JSONRPCMessage
deriving DecidableEq, Repr

/-- Modelled from the spec: construction-time configuration (spec §3).
`sessionIdGenerator` is modelled by the value the generator yields on its
single invocation (`none` = stateless mode); `hasEventStore` says whether
an event store collaborator is configured. -/
structure TransportOptions where
  sessionIdGenerator : Option String
  enableJsonResponse : Bool
  hasEventStore : Bool
deriving DecidableEq, Repr

/-- Association list lookup (first binding wins). -/
def lookupA {α β : Type} [DecidableEq α] (k : α) : List (α × β) → Option β
  | [] => none
  | p :: rest => if p.1 = k then some p.2 else lookupA k rest

/-- Remove every binding of a key from an association list. -/
def removeA {α β : Type} [DecidableEq α] (k : α) : List (α × β) → List (α × β)
  | [] => []
  | p :: rest => if p.1 = k then removeA k rest else p :: removeA k rest

/-- Insert a binding, replacing any previous binding of the key. -/
def insertA {α β : Type} [DecidableEq α] (k : α) (v : β) (l : List (α × β)) :
    List (α × β) :=
  (k, v) :: removeA k l

/-- Apply a function to the value bound to a key. -/
def mapA {α β : Type} [DecidableEq α] (k : α) (f : β → β) : List (α × β) → List (α × β)
  | [] => []
  | p :: rest => if p.1 = k then (p.1, f p.2) :: mapA k f rest else p :: mapA k f rest

/-- Modelled from the spec: the transport's mutable state (spec §3–§4):
session id and initialization flag, the connection table, the
stream-id-to-connection and request-id-to-stream maps, the buffered reply
map for JSON-response mode, the fresh-id counters, the event store, and
the list of messages delivered upward through `onmessage`. -/
structure TransportState where
  sessionId : Option String := none
  initialized : Bool := false
  conns : List (Nat × Connection) := []
  nextConnId : Nat := 0
  streamMapping : List (StreamId × Nat) := []
  requestToStreamMapping : List (RequestId × StreamId) := []
  requestResponseMap : List (RequestId × JSONRPCMessage) := []
  nextStreamNum : Nat := 0
  store : EventStoreState := ⟨[], 0⟩
  delivered : List JSONRPCMessage := []
deriving DecidableEq, Repr

/-- The connection table entry for a connection id. -/
def connOf (st : TransportState) (c : Nat) : Option Connection :=
  lookupA c st.conns

/-- Update one connection in the transport state. -/
def updateConn (st : TransportState) (c : Nat) (f : Connection → Connection) :
    TransportState :=
  { st with conns := mapA c f st.conns }

/-- Write an error status with a JSON-RPC error envelope body and end the
response. -/
def respondJsonError (status : Nat) (code : Int) (msg : String)
    (conn : Connection) : Connection :=
  { conn with status := some status, body := some (.jsonError code msg), ended := true }

/-- The connection produced by answering a fresh request with a JSON-RPC
error envelope. -/
def errConn (status : Nat) (code : Int) (msg : String) : Connection :=
  { status := some status, headers := [], frames := [], body := some (.jsonError code msg),
    ended := true }

/-- The response headers opening an SSE stream (spec §4.3/§4.4), with the
`mcp-session-id` header appended when a session is assigned. -/
def sseHeaders (sid : Option String) : List (String × String) :=
  [("Content-Type", "text/event-stream"),
   ("Cache-Control", "no-cache, no-transform"),
   ("Connection", "keep-alive")] ++
  (match sid with
   | some s => [("mcp-session-id", s)]
   | none => [])

/-- The response headers of a JSON-response-mode reply (spec §4.3), with
the `mcp-session-id` header appended when a session is assigned. -/
def jsonHeaders (sid : Option String) : List (String × String) :=
  [("Content-Type", "application/json")] ++
  (match sid with
   | some s => [("mcp-session-id", s)]
   | none => [])

/-- Modelled from the spec: the session check of the dispatcher
(spec §4.1): an uninitialized transport rejects with 400
`"Server not initialized"`; in stateless mode (no session assigned)
validation is skipped; otherwise an absent `mcp-session-id` header yields
400 `-32000 "Bad Request"` and a mismatching one 404 `-32001
"Session not found"`.  Returns `some (httpStatus, code, message)` on
rejection and `none` on success. -/
def checkSession (st : TransportState) (hdr : Option String) :
    Option (Nat × Int × String) :=
  if ¬ st.initialized then some (400, -32000, "Server not initialized")
  else
    match st.sessionId with
    | none => none
    | some sid =>
      match hdr with
      | none => some (400, -32000, "Bad Request")
      | some h => if h = sid then none else some (404, -32001, "Session not found")

/-- Modelled from the spec: the tail of the POST handler (spec §4.3,
batch policy and request stream lifecycle): a batch with no requests is
answered 202 with an empty body and its messages delivered upward; a batch
with requests allocates a fresh stream id, records the id-to-stream
mapping, opens the SSE response (unless JSON-response mode defers the
headers), and delivers the messages upward. -/
def handlePostMessages (cfg : TransportOptions) (st : TransportState) (c : Nat)
    (messages : List JSONRPCMessage) : TransportState :=
  if ¬ messages.any isJSONRPCRequest then
    let st := updateConn st c (fun conn =>
      { conn with status := some 202, body := some .empty, ended := true })
    { st with delivered := st.delivered ++ messages }
  else
    let streamId := StreamId.post st.nextStreamNum
    let st := { st with
      nextStreamNum := st.nextStreamNum + 1,
      streamMapping := insertA streamId c st.streamMapping,
      requestToStreamMapping :=
        (messages.filterMap requestIdOf).foldl
          (fun m id => insertA id streamId m) st.requestToStreamMapping }
    let st :=
      if ¬ cfg.enableJsonResponse then
        updateConn st c (fun conn =>
          { conn with status := some 200, headers := sseHeaders st.sessionId })
      else st
    { st with delivered := st.delivered ++ messages }

/-- Modelled from the spec: the POST handler (spec §4.3): Accept must list
both media types (else 406), Content-Type must be JSON (else 415); an
`initialize` batch is rejected when already initialized (400 `-32600`) or
when it carries more than one `initialize` (400 `-32600`), and otherwise
assigns the session and sets the initialization flag; a non-initialize
batch passes the session check first. -/
def handlePost (cfg : TransportOptions) (st : TransportState) (c : Nat)
    (req : HttpRequest) : TransportState :=
  if ¬ ("application/json" ∈ req.accept ∧ "text/event-stream" ∈ req.accept) then
    updateConn st c (respondJsonError 406 (-32000)
      "Client must accept both application/json and text/event-stream")
  else if ¬ req.contentTypeJson then
    updateConn st c (respondJsonError 415 (-32000)
      "Content-Type must be application/json")
  else
    let messages := req.body
    if messages.any isInitializeRequest then
      if st.initialized then
        updateConn st c (respondJsonError 400 (-32600) "Server already initialized")
      else if 1 < (messages.filter isInitializeRequest).length then
        updateConn st c (respondJsonError 400 (-32600)
          "Only one initialization request is allowed")
      else
        let st := { st with sessionId := cfg.sessionIdGenerator, initialized := true }
        handlePostMessages cfg st c messages
    else
      match checkSession st req.sessionIdHeader with
      | some e => updateConn st c (respondJsonError e.1 e.2.1 e.2.2)
      | none => handlePostMessages cfg st c messages

/-- Modelled from the spec: the GET standalone stream handler
(spec §4.1/§4.4): Accept must list `text/event-stream` (else 406); the
dispatcher's session check applies to GET; a GET while a standalone stream
is already open is rejected with 409 `-32000
"Only one SSE stream is allowed per session"` (even in stateless mode);
then, with an event store and a `last-event-id` header, the response is
opened and the store's replay is written onto it, the returned stream id
adopting the new connection; otherwise the stream is opened and registered
under the sentinel stream id. -/
def handleGet (cfg : TransportOptions) (st : TransportState) (c : Nat)
    (req : HttpRequest) : TransportState :=
  if ¬ "text/event-stream" ∈ req.accept then
    updateConn st c (respondJsonError 406 (-32000)
      "Client must accept text/event-stream")
  else
    match checkSession st req.sessionIdHeader with
    | some e => updateConn st c (respondJsonError e.1 e.2.1 e.2.2)
    | none =>
      if (lookupA standaloneSseStreamId st.streamMapping).isSome then
        updateConn st c (respondJsonError 409 (-32000)
          "Only one SSE stream is allowed per session")
      else
        match cfg.hasEventStore, req.lastEventId with
        | true, some lid =>
          match replayEventsAfter lid st.store.events with
          | none =>
            updateConn st c (fun conn =>
              { conn with status := some 200, headers := sseHeaders st.sessionId })
          | some (sid, pairs) =>
            let st := updateConn st c (fun conn =>
              { conn with
                status := some 200
                headers := sseHeaders st.sessionId
                frames := pairs.map (fun p => ⟨some p.1, p.2⟩) })
            { st with streamMapping := insertA sid c st.streamMapping }
        | _, _ =>
          let st := updateConn st c (fun conn =>
            { conn with status := some 200, headers := sseHeaders st.sessionId })
          { st with streamMapping := insertA standaloneSseStreamId c st.streamMapping }

/-- Modelled from the spec: the DELETE handler (spec §4.5): after the
session check, terminate the session — clear the session id, close all
open streams, answer 200 with an empty body. -/
def handleDelete (cfg : TransportOptions) (st : TransportState) (c : Nat)
    (req : HttpRequest) : TransportState :=
  match checkSession st req.sessionIdHeader with
  | some e => updateConn st c (respondJsonError e.1 e.2.1 e.2.2)
  | none =>
    let st := updateConn st c (fun conn =>
      { conn with status := some 200, body := some .empty, ended := true })
    { st with
      sessionId := none,
      streamMapping := [],
      requestToStreamMapping := [],
      requestResponseMap := [],
      conns := st.conns.map (fun p => (p.1, { p.2 with ended := true })) }

/-- Modelled from the spec: the request dispatcher
`handleRequest(req, res, parsedBody?)` (spec §4.1): allocate a fresh
connection for the response, dispatch on the HTTP method, and answer any
other method with 405.  Returns the new state and the id of the
connection that carries this request's response. -/
def handleRequest (cfg : TransportOptions) (st : TransportState)
    (req : HttpRequest) : TransportState × Nat :=
  let c := st.nextConnId
  let st := { st with conns := (c, ({} : Connection)) :: st.conns, nextConnId := c + 1 }
  let st :=
    if req.method = "POST" then handlePost cfg st c req
    else if req.method = "GET" then handleGet cfg st c req
    else if req.method = "DELETE" then handleDelete cfg st c req
    else updateConn st c (fun conn =>
      { conn with
        status := some 405
        headers := [("Allow", "GET, POST, DELETE")]
        body := some .empty
        ended := true })
  (st, c)

/-- The connection that answers a single dispatched request. -/
def respOf (cfg : TransportOptions) (st : TransportState) (req : HttpRequest) :
    Option Connection :=
  let r := handleRequest cfg st req
  connOf r.1 r.2

/-- Modelled from the spec: client disconnect on a connection (spec §5,
Cancellation): the affected response is marked closed, any stream
registered to that connection is removed from the stream table (freeing
the standalone slot for a future reconnect), and pending request ids whose
stream belonged to that connection are cleared so later sends drop
cleanly. -/
def clientDisconnect (st : TransportState) (c : Nat) : TransportState :=
  { st with
    conns := mapA c (fun cn => { cn with ended := true }) st.conns
    streamMapping := st.streamMapping.filter (fun p => p.2 ≠ c)
    requestToStreamMapping := st.requestToStreamMapping.filter
      (fun p => lookupA p.2 st.streamMapping ≠ some c) }

/-- Modelled from the spec: the outbound send router `send(message,
options?)` (spec §4.7): a response (or an explicit `relatedRequestId`)
routes to the request stream owning that id — written through the SSE
writer unless in JSON-response mode, and, once every id of that stream is
answered, the response is completed (JSON body or end of stream) and the
mappings are cleared; a server-initiated request or notification routes to
the standalone stream, assigned an event id from the store when one is
configured, and is dropped when no standalone stream is open. -/
def send (cfg : TransportOptions) (st : TransportState) (msg : JSONRPCMessage)
    (relatedRequestId : Option RequestId) : TransportState :=
  let requestId : Option RequestId :=
    match msg with
    | .response id _ => some id
    | .errorReply id _ _ => some id
    | _ => relatedRequestId
  match requestId with
  | none =>
    match lookupA standaloneSseStreamId st.streamMapping with
    | none => st
    | some c =>
      if cfg.hasEventStore then
        let r := storeEvent st.store standaloneSseStreamId msg
        let st := { st with store := r.2 }
        updateConn st c (fun conn =>
          { conn with frames := conn.frames ++ [⟨some r.1, msg⟩] })
      else
        updateConn st c (fun conn =>
          { conn with frames := conn.frames ++ [⟨none, msg⟩] })
  | some rid =>
    match lookupA rid st.requestToStreamMapping with
    | none => st
    | some streamId =>
      let connId := lookupA streamId st.streamMapping
      let st :=
        if ¬ cfg.enableJsonResponse then
          let r : Option EventId × EventStoreState :=
            if cfg.hasEventStore then
              let r := storeEvent st.store streamId msg
              (some r.1, r.2)
            else (none, st.store)
          let st := { st with store := r.2 }
          match connId with
          | some c => updateConn st c (fun conn =>
              { conn with frames := conn.frames ++ [⟨r.1, msg⟩] })
          | none => st
        else st
      if isResponseOrError msg then
        let st := { st with requestResponseMap := insertA rid msg st.requestResponseMap }
        let relatedIds :=
          (st.requestToStreamMapping.filter (fun p => p.2 = streamId)).map (fun p => p.1)
        if relatedIds.all (fun id => (lookupA id st.requestResponseMap).isSome) then
          let st :=
            match connId with
            | none => st
            | some c =>
              if cfg.enableJsonResponse then
                let responses := relatedIds.filterMap
                  (fun id => lookupA id st.requestResponseMap)
                updateConn st c (fun conn =>
                  { conn with
                    status := some 200
                    headers := jsonHeaders st.sessionId
                    body := some (match responses with
                      | [r] => .jsonSingle r
                      | rs => .jsonBatch rs)
                    ended := true })
              else
                updateConn st c (fun conn => { conn with ended := true })
          { st with
            requestToStreamMapping :=
              relatedIds.foldl (fun m id => removeA id m) st.requestToStreamMapping,
            requestResponseMap :=
              relatedIds.foldl (fun m id => removeA id m) st.requestResponseMap,
            streamMapping := removeA streamId st.streamMapping }
        else st
      else st

/-- Send a list of server-initiated messages in order. -/
def sendMessages (cfg : TransportOptions) (st : TransportState)
    (ms : List JSONRPCMessage) : TransportState :=
  ms.foldl (fun s m => send cfg s m none) st

/-- A POST with well-formed headers (both Accept media types, JSON
Content-Type), a session header, and a body. -/
def postRequest (hdr : Option String) (body : List JSONRPCMessage) : HttpRequest :=
  ⟨"POST", ["application/json", "text/event-stream"], true, hdr, none, body⟩

/-- A GET with the `text/event-stream` Accept header. -/
def getRequest (hdr : Option String) (lei : Option EventId) : HttpRequest :=
  ⟨"GET", ["text/event-stream"], false, hdr, lei, []⟩

/-- A DELETE request. -/
def deleteRequest (hdr : Option String) : HttpRequest :=
  ⟨"DELETE", [], false, hdr, none, []⟩

/-- A response carries no `mcp-session-id` header. -/
def noSessHdr (conn : Connection) : Prop :=
  lookupA "mcp-session-id" conn.headers = none

instance (conn : Connection) : Decidable (noSessHdr conn) := by
  unfold noSessHdr
  infer_instance

/-- The stored events produced by a run of standalone sends: one per
message, with consecutive sequence numbers starting at `c0`. -/
def mkEvents (sid : StreamId) (c0 : Nat) : List JSONRPCMessage → List StoredEvent
  | [] => []
  | m :: ms => ⟨⟨sid, c0⟩, m⟩ :: mkEvents sid (c0 + 1) ms

/-- The SSE frames carrying a list of stored events. -/
def eventFrames (es : List StoredEvent) : List Frame :=
  es.map (fun e => ⟨some e.eventId, e.message⟩)

/-- The `(eventId, message)` pairs of a list of stored events. -/
def eventPairs (es : List StoredEvent) : List (EventId × JSONRPCMessage) :=
  es.map (fun e => (e.eventId, e.message))

/-- Configuration of the default test server: stateful, SSE replies. -/
def cfgSse : TransportOptions := ⟨some "sess1", false, false⟩

/-- Configuration with JSON-response mode enabled. -/
def cfgJson : TransportOptions := ⟨some "sess1", true, false⟩

/-- Stateless configuration (generator yields nothing). -/
def cfgStateless : TransportOptions := ⟨none, false, false⟩

/-- Stateful configuration with an event store. -/
def cfgStore : TransportOptions := ⟨some "sess1", false, true⟩

/-- The initial `initialize` POST of the test suite. -/
def initPost : HttpRequest := postRequest none [.request "init-1" "initialize"]

/-- State after initialization under the SSE configuration. -/
def stInit : TransportState := (handleRequest cfgSse {} initPost).1

/-- State with two concurrent request streams pending (`req-1` on conn 1,
`req-2` on conn 2). -/
def stTwoPosts : TransportState :=
  (handleRequest cfgSse
    (handleRequest cfgSse stInit
      (postRequest (some "sess1") [.request "req-1" "tools/list"])).1
    (postRequest (some "sess1") [.request "req-2" "tools/call"])).1

/-- State after initialization under the JSON-response configuration. -/
def stJson : TransportState := (handleRequest cfgJson {} initPost).1

/-- State after initialization in stateless mode. -/
def stStateless : TransportState := (handleRequest cfgStateless {} initPost).1

/-- Stateless state with the standalone stream open on conn 1. -/
def stStatelessGet : TransportState :=
  (handleRequest cfgStateless stStateless (getRequest none none)).1

/-- Event-store state with the standalone stream open on conn 1. -/
def stStoreGet : TransportState :=
  (handleRequest cfgStore (handleRequest cfgStore {} initPost).1
    (getRequest (some "sess1") none)).1

/-- An open SSE response stream of the stateful configurations. -/
def wConnSse : Connection :=
  { status := some 200, headers := sseHeaders (some "sess1"), frames := [], body := none,
    ended := false }

/-- Two test notifications. -/
def wNotifs : List JSONRPCMessage := [.notification "n1", .notification "n2"]

/-- Buffered replies for a list of request ids, inserted in order
(the JSON-response-mode reply buffer after those ids were answered). -/
def insertReplies (res : RequestId → String) (done : List RequestId)
    (m : List (RequestId × JSONRPCMessage)) : List (RequestId × JSONRPCMessage) :=
  done.foldl (fun mm i => insertA i (.response i (res i)) mm) m

/-- Send the replies for a list of request ids through the transport, in
order. -/
def sendReplies (cfg : TransportOptions) (res : RequestId → String)
    (st : TransportState) (ids : List RequestId) : TransportState :=
  ids.foldl (fun s i => send cfg s (.response i (res i)) none) st

/-- Result payloads used by the JSON-response-mode witness. -/
def wRes : RequestId → String := fun i => "result-" ++ i

theorem lookupA_insertA_self {α β : Type} [DecidableEq α] (k : α) (v : β)
    (l : List (α × β)) : lookupA k (insertA k v l) = some v := by
  simp [insertA, lookupA]

theorem lookupA_removeA_self {α β : Type} [DecidableEq α] (k : α)
    (l : List (α × β)) : lookupA k (removeA k l) = none := by
  induction l with
  | nil => rfl
  | cons p rest ih =>
    simp only [removeA]
    by_cases h : p.1 = k
    · simp [h, ih]
    · simp [lookupA, h, ih]

theorem lookupA_removeA_ne {α β : Type} [DecidableEq α] {k k' : α}
    (h : k' ≠ k) (l : List (α × β)) : lookupA k' (removeA k l) = lookupA k' l := by
  have hkk : ¬ (k = k') := fun e => h e.symm
  induction l with
  | nil => rfl
  | cons p rest ih =>
    simp only [removeA, lookupA]
    by_cases hp : p.1 = k
    · simp [hp, hkk, ih, lookupA]
    · simp [hp, lookupA, ih]

theorem lookupA_insertA_ne {α β : Type} [DecidableEq α] {k k' : α} (v : β)
    (h : k' ≠ k) (l : List (α × β)) : lookupA k' (insertA k v l) = lookupA k' l := by
  have hkk : ¬ (k = k') := fun e => h e.symm
  simp [insertA, lookupA, hkk, lookupA_removeA_ne h]

theorem lookupA_mapA_self {α β : Type} [DecidableEq α] (k : α) (f : β → β)
    (l : List (α × β)) : lookupA k (mapA k f l) = (lookupA k l).map f := by
  induction l with
  | nil => rfl
  | cons p rest ih =>
    simp only [mapA]
    by_cases h : p.1 = k
    · simp [h, lookupA]
    · simp [h, lookupA, ih]

theorem lookupA_mapA_ne {α β : Type} [DecidableEq α] {k k' : α} (f : β → β)
    (h : k' ≠ k) (l : List (α × β)) : lookupA k' (mapA k f l) = lookupA k' l := by
  induction l with
  | nil => rfl
  | cons p rest ih =>
    simp only [mapA]
    by_cases hp : p.1 = k
    · have hkk : ¬ (k = k') := fun e => h e.symm
      simp [hp, hkk, lookupA, ih]
    · simp [hp, lookupA, ih]

theorem connOf_updateConn_self (st : TransportState) (c : Nat) (f : Connection → Connection) :
    connOf (updateConn st c f) c = (connOf st c).map f := by
  simp [connOf, updateConn, lookupA_mapA_self]

theorem connOf_updateConn_ne (st : TransportState) {c c' : Nat} (f : Connection → Connection)
    (h : c' ≠ c) : connOf (updateConn st c f) c' = connOf st c' := by
  simp [connOf, updateConn, lookupA_mapA_ne f h]

/-- C1: For every POST whose batch carries exactly one JSON-RPC request with
id `X` (so `X` is the only id pending on its stream), the reply sent later via
`send` with id `X` is written exactly once on that POST's own response stream:
that connection gains exactly one frame carrying the reply and then ends,
every other connection (other concurrent POST streams and the standalone
stream) is untouched, and the pending mapping for `X` is cleared so a repeat
cannot be delivered again. -/
theorem send_response_on_own_stream
    (cfg : TransportOptions) (st : TransportState) (X : RequestId) (r : String)
    (sid : StreamId) (c : Nat) (conn : Connection)
    (hjson : cfg.enableJsonResponse = false)
    (hmap : lookupA X st.requestToStreamMapping = some sid)
    (hstream : lookupA sid st.streamMapping = some c)
    (hconn : connOf st c = some conn)
    (hrelated : (st.requestToStreamMapping.filter (fun p => p.2 = sid)).map (fun p => p.1) = [X]) :
    connOf (send cfg st (.response X r) none) c =
      some { conn with
             frames := conn.frames ++
               [⟨if cfg.hasEventStore then some ⟨sid, st.store.counter⟩ else none,
                 .response X r⟩]
             ended := true } ∧
    (∀ c', c' ≠ c → connOf (send cfg st (.response X r) none) c' = connOf st c') ∧
    lookupA X (send cfg st (.response X r) none).requestToStreamMapping = none ∧
    lookupA sid (send cfg st (.response X r) none).streamMapping = none := by
  have hsend : send cfg st (.response X r) none =
      { st with
        store := if cfg.hasEventStore then (storeEvent st.store sid (.response X r)).2 else st.store
        conns := mapA c (fun cn => { cn with ended := true })
          (mapA c (fun cn => { cn with frames := cn.frames ++
            [⟨if cfg.hasEventStore then some ⟨sid, st.store.counter⟩ else none,
              .response X r⟩] }) st.conns)
        requestResponseMap := removeA X (insertA X (.response X r) st.requestResponseMap)
        requestToStreamMapping := removeA X st.requestToStreamMapping
        streamMapping := removeA sid st.streamMapping } := by
    simp only [send, hmap, hjson, hstream]
    cases hes : cfg.hasEventStore <;>
      simp [hes, storeEvent, isResponseOrError, updateConn, hrelated,
        lookupA_insertA_self]
  rw [hsend]
  refine ⟨?_, ?_, ?_, ?_⟩
  · simp only [connOf] at hconn ⊢
    simp [lookupA_mapA_self, hconn]
  · intro c' hc'
    simp only [connOf]
    simp [lookupA_mapA_ne _ hc']
  · simp [lookupA_removeA_self]
  · simp [lookupA_removeA_self]

/-- C3: A GET arriving while a standalone stream is already open — in any
mode whose session check passes, including stateless mode — is answered 409
with JSON-RPC error `-32000 "Only one SSE stream is allowed per session"` and
opens no new stream (the stream table is unchanged), so at most one
standalone stream is open at any time. -/
theorem second_get_conflict
    (cfg : TransportOptions) (st : TransportState) (hdr : Option String) (c0 : Nat)
    (hopen : lookupA standaloneSseStreamId st.streamMapping = some c0)
    (hsess : checkSession st hdr = none) :
    respOf cfg st (getRequest hdr none) =
      some (errConn 409 (-32000) "Only one SSE stream is allowed per session") ∧
    (handleRequest cfg st (getRequest hdr none)).1.streamMapping = st.streamMapping := by
  have hh : checkSession
      { st with
        conns := (st.nextConnId, ({} : Connection)) :: st.conns
        nextConnId := st.nextConnId + 1 } hdr = checkSession st hdr := rfl
  cases hes : cfg.hasEventStore <;>
    simp [respOf, handleRequest, handleGet, getRequest, hes, hh, hsess, hopen,
      connOf, updateConn, mapA, lookupA, respondJsonError, errConn]

/-- C4: On a transport in stateful mode with a session assigned, a
non-initialize POST, a GET, or a DELETE with no `mcp-session-id` header is
answered 400 with JSON-RPC error `-32000 "Bad Request"` (id null, per
`RespBody.jsonError`), and one whose header differs from the current session
is answered 404 with `-32001 "Session not found"`. -/
theorem session_validation_errors
    (cfg : TransportOptions) (st : TransportState) (s h : String)
    (body : List JSONRPCMessage)
    (hinit : st.initialized = true)
    (hsid : st.sessionId = some s)
    (hne : h ≠ s)
    (hni : body.any isInitializeRequest = false) :
    respOf cfg st (postRequest none body) = some (errConn 400 (-32000) "Bad Request") ∧
    respOf cfg st (postRequest (some h) body) =
      some (errConn 404 (-32001) "Session not found") ∧
    respOf cfg st (getRequest none none) = some (errConn 400 (-32000) "Bad Request") ∧
    respOf cfg st (getRequest (some h) none) =
      some (errConn 404 (-32001) "Session not found") ∧
    respOf cfg st (deleteRequest none) = some (errConn 400 (-32000) "Bad Request") ∧
    respOf cfg st (deleteRequest (some h)) =
      some (errConn 404 (-32001) "Session not found") := by
  refine ⟨?_, ?_, ?_, ?_, ?_, ?_⟩ <;>
    cases hes : cfg.hasEventStore <;>
    simp [respOf, handleRequest, handlePost, handleGet, handleDelete, postRequest,
      getRequest, deleteRequest, checkSession, hinit, hsid, hne, hni, hes, connOf,
      updateConn, mapA, lookupA, respondJsonError, errConn]

/-- C5: A POST whose body contains an `initialize` request after the
transport has already initialized is answered 400 with JSON-RPC error
`-32600 "Server already initialized"`, and the existing session, the
initialization flag, and the stream table are left unchanged. -/
theorem second_initialize_rejected
    (cfg : TransportOptions) (st : TransportState) (hdr : Option String)
    (body : List JSONRPCMessage)
    (hinit : st.initialized = true)
    (hbody : body.any isInitializeRequest = true) :
    respOf cfg st (postRequest hdr body) =
      some (errConn 400 (-32600) "Server already initialized") ∧
    (handleRequest cfg st (postRequest hdr body)).1.sessionId = st.sessionId ∧
    (handleRequest cfg st (postRequest hdr body)).1.initialized = true ∧
    (handleRequest cfg st (postRequest hdr body)).1.streamMapping = st.streamMapping := by
  refine ⟨?_, ?_, ?_, ?_⟩ <;>
    simp [respOf, handleRequest, handlePost, postRequest, hinit, hbody, connOf,
      updateConn, mapA, lookupA, respondJsonError, errConn]

/-- C8: A POST whose batch contains only notifications and responses (no
message carrying a request id) is answered 202 Accepted with an empty body,
every message of the batch is delivered upward through `onmessage` (the
`delivered` list), and no response stream is opened (the stream table and the
request-to-stream mapping are unchanged). -/
theorem notifications_only_202
    (cfg : TransportOptions) (st : TransportState) (hdr : Option String)
    (body : List JSONRPCMessage)
    (hni : body.any isInitializeRequest = false)
    (hnr : body.any isJSONRPCRequest = false)
    (hsess : checkSession st hdr = none) :
    respOf cfg st (postRequest hdr body) =
      some { status := some 202, headers := [], frames := [], body := some .empty,
             ended := true } ∧
    (handleRequest cfg st (postRequest hdr body)).1.delivered = st.delivered ++ body ∧
    (handleRequest cfg st (postRequest hdr body)).1.streamMapping = st.streamMapping ∧
    (handleRequest cfg st (postRequest hdr body)).1.requestToStreamMapping =
      st.requestToStreamMapping := by
  have hh : checkSession
      { st with
        conns := (st.nextConnId, ({} : Connection)) :: st.conns
        nextConnId := st.nextConnId + 1 } hdr = checkSession st hdr := rfl
  refine ⟨?_, ?_, ?_, ?_⟩ <;>
    simp [respOf, handleRequest, handlePost, handlePostMessages, postRequest, hni, hnr,
      hh, hsess, connOf, updateConn, mapA, lookupA]

/-- C10: In stateless mode, a GET carrying `Accept: text/event-stream` but no
`mcp-session-id` header at all is accepted on an initialized transport: it is
answered 200 with the SSE headers and the standalone stream is registered for
its connection. -/
theorem stateless_get_without_header
    (cfg : TransportOptions) (st : TransportState)
    (hinit : st.initialized = true)
    (hsid : st.sessionId = none)
    (hfree : lookupA standaloneSseStreamId st.streamMapping = none) :
    respOf cfg st (getRequest none none) =
      some { status := some 200, headers := sseHeaders none, frames := [], body := none,
             ended := false } ∧
    lookupA standaloneSseStreamId
      (handleRequest cfg st (getRequest none none)).1.streamMapping =
      some st.nextConnId := by
  refine ⟨?_, ?_⟩ <;>
    cases hes : cfg.hasEventStore <;>
    simp [respOf, handleRequest, handleGet, getRequest, checkSession, hinit, hsid, hes,
      hfree, connOf, updateConn, mapA, lookupA, lookupA_insertA_self]

theorem mem_removeA {α β : Type} [DecidableEq α] {k : α} {p : α × β}
    {l : List (α × β)} (h : p ∈ removeA k l) : p ∈ l := by
  induction l with
  | nil => simp [removeA] at h
  | cons q rest ih =>
    simp only [removeA] at h
    by_cases hq : q.1 = k
    · simp only [hq, if_pos rfl] at h
      exact List.mem_cons_of_mem _ (ih h)
    · rw [if_neg hq] at h
      rcases List.mem_cons.mp h with h | h
      · exact h ▸ List.mem_cons_self _ _
      · exact List.mem_cons_of_mem _ (ih h)

theorem filterStream_nil {α β : Type} [DecidableEq β] (sid : β)
    {l : List (α × β)} (h : ∀ p ∈ l, p.2 ≠ sid) :
    l.filter (fun p => p.2 = sid) = [] := by
  simp only [List.filter_eq_nil_iff]
  intro p hp
  simpa using h p hp

theorem foldl_removeA_cons {α β : Type} [DecidableEq α] (t : List α) :
    ∀ (X : List (α × β)) (p : α × β), p.1 ∉ t →
    t.foldl (fun m i => removeA i m) (p :: X) =
      p :: t.foldl (fun m i => removeA i m) X := by
  induction t with
  | nil => intro X p h; rfl
  | cons j t ih =>
    intro X p h
    have hj : ¬ (p.1 = j) := fun e => h (by rw [e]; exact List.mem_cons_self _ _)
    simp only [List.foldl_cons, removeA, if_neg hj]
    exact ih _ p (fun hm => h (List.mem_cons_of_mem _ hm))

theorem mem_foldl_removeA {α β : Type} [DecidableEq α] (t : List α) :
    ∀ (R : List (α × β)) (p : α × β),
    p ∈ t.foldl (fun m i => removeA i m) R → p ∈ R := by
  induction t with
  | nil => intro R p h; exact h
  | cons j t ih =>
    intro R p h
    exact mem_removeA (ih (removeA j R) p h)

theorem regFold (sid : StreamId) (ids : List RequestId) :
    ∀ R, ids.Nodup →
    ids.foldl (fun m i => insertA i sid m) R =
      ids.reverse.map (fun i => (i, sid)) ++ ids.foldl (fun m i => removeA i m) R := by
  induction ids with
  | nil => intro R h; rfl
  | cons a t ih =>
    intro R h
    have hna : a ∉ t := (List.nodup_cons.mp h).1
    have hnt : t.Nodup := (List.nodup_cons.mp h).2
    simp only [List.foldl_cons]
    calc t.foldl (fun m i => insertA i sid m) (insertA a sid R)
        = t.reverse.map (fun i => (i, sid)) ++
            t.foldl (fun m i => removeA i m) (insertA a sid R) := ih _ hnt
      _ = t.reverse.map (fun i => (i, sid)) ++
            ((a, sid) :: t.foldl (fun m i => removeA i m) (removeA a R)) := by
          rw [show insertA a sid R = (a, sid) :: removeA a R from rfl,
            foldl_removeA_cons t (removeA a R) (a, sid) hna]
      _ = (a :: t).reverse.map (fun i => (i, sid)) ++
            t.foldl (fun m i => removeA i m) (removeA a R) := by
          simp
  
theorem lookupA_map_pair (sid : StreamId) (l : List RequestId) (i : RequestId)
    (h : i ∈ l) : lookupA i (l.map (fun j => (j, sid))) = some sid := by
  induction l with
  | nil => simp at h
  | cons a t ih =>
    simp only [List.map_cons, lookupA]
    by_cases ha : a = i
    · simp [ha]
    · rcases List.mem_cons.mp h with h1 | h1
      · exact absurd h1.symm ha
      · simp [ha, ih h1]

theorem lookupA_append_some {α β : Type} [DecidableEq α] (k : α) (v : β)
    (A B : List (α × β)) (h : lookupA k A = some v) :
    lookupA k (A ++ B) = some v := by
  induction A with
  | nil => simp [lookupA] at h
  | cons p t ih =>
    simp only [List.cons_append, lookupA] at h ⊢
    by_cases hp : p.1 = k
    · simpa [hp] using h
    · rw [if_neg hp] at h ⊢
      exact ih h

theorem lookupA_insertReplies_not_mem (res : RequestId → String)
    (done : List RequestId) (i : RequestId) :
    ∀ m, i ∉ done → lookupA i (insertReplies res done m) = lookupA i m := by
  induction done with
  | nil => intro m h; rfl
  | cons d t ih =>
    intro m h
    have hd : i ≠ d := fun e => h (by rw [e]; exact List.mem_cons_self _ _)
    have ht : i ∉ t := fun hm => h (List.mem_cons_of_mem _ hm)
    calc lookupA i (insertReplies res (d :: t) m)
        = lookupA i (insertReplies res t (insertA d (.response d (res d)) m)) := rfl
      _ = lookupA i (insertA d (.response d (res d)) m) := ih _ ht
      _ = lookupA i m := lookupA_insertA_ne _ hd _

theorem lookupA_insertReplies_mem (res : RequestId → String)
    (done : List RequestId) (i : RequestId) :
    ∀ m, i ∈ done →
    lookupA i (insertReplies res done m) = some (.response i (res i)) := by
  induction done with
  | nil => intro m h; simp at h
  | cons d t ih =>
    intro m h
    by_cases hit : i ∈ t
    · exact ih _ hit
    · have hid : i = d := by
        rcases List.mem_cons.mp h with h1 | h1
        · exact h1
        · exact absurd h1 hit
      calc lookupA i (insertReplies res (d :: t) m)
          = lookupA i (insertReplies res t (insertA d (.response d (res d)) m)) := rfl
        _ = lookupA i (insertA d (.response d (res d)) m) :=
            lookupA_insertReplies_not_mem res t i _ hit
        _ = some (.response i (res i)) := by rw [hid, lookupA_insertA_self]

theorem filterMap_lookupA_map {γ : Type} (l : List RequestId)
    (g : RequestId → Option γ) (f : RequestId → γ)
    (h : ∀ x ∈ l, g x = some (f x)) : l.filterMap g = l.map f := by
  induction l with
  | nil => rfl
  | cons a t ih =>
    simp only [List.filterMap_cons, List.map_cons, h a (List.mem_cons_self _ _)]
    rw [ih (fun x hx => h x (List.mem_cons_of_mem _ hx))]

theorem any_isInit_map (mth : String) (l : List RequestId)
    (h : mth ≠ "initialize") :
    (l.map (fun i => JSONRPCMessage.request i mth)).any isInitializeRequest = false := by
  simp [List.any_map, Function.comp, isInitializeRequest, h]

theorem any_isReq_map (mth : String) (l : List RequestId) (h : l ≠ []) :
    (l.map (fun i => JSONRPCMessage.request i mth)).any isJSONRPCRequest = true := by
  cases l with
  | nil => exact absurd rfl h
  | cons a t => simp [isJSONRPCRequest]

theorem filterMap_requestIdOf_map (mth : String) (l : List RequestId) :
    List.filterMap requestIdOf (l.map (fun i => JSONRPCMessage.request i mth)) = l := by
  induction l with
  | nil => rfl
  | cons a t ih =>
    simp only [List.map_cons, List.filterMap_cons, requestIdOf]
    rw [ih]

theorem filterMap_requestIdOf_comp (mth : String) (l : List RequestId) :
    List.filterMap (requestIdOf ∘ fun i => JSONRPCMessage.request i mth) l = l := by
  induction l with
  | nil => rfl
  | cons a t ih =>
    simp only [List.filterMap_cons, Function.comp, requestIdOf]
    rw [ih]

theorem sendReplies_buffer (cfg : TransportOptions) (res : RequestId → String)
    (sid : StreamId) (j : RequestId) (p : List RequestId) :
    ∀ (s : TransportState),
    cfg.enableJsonResponse = true →
    (∀ i ∈ p, lookupA i s.requestToStreamMapping = some sid) →
    j ∈ (s.requestToStreamMapping.filter (fun q => q.2 = sid)).map (fun q => q.1) →
    j ∉ p →
    lookupA j s.requestResponseMap = none →
    sendReplies cfg res s p =
      { s with requestResponseMap := insertReplies res p s.requestResponseMap } := by
  induction p with
  | nil => intro s h1 h2 h3 h4 h5; rfl
  | cons i t ih =>
    intro s hjson hlk hj hnp hnone
    have hii : lookupA i s.requestToStreamMapping = some sid :=
      hlk i (List.mem_cons_self _ _)
    have hji : j ≠ i := fun e => hnp (by rw [e]; exact List.mem_cons_self _ _)
    have hall : ((s.requestToStreamMapping.filter (fun q => q.2 = sid)).map
        (fun q => q.1)).all (fun id =>
          (lookupA id (insertA i (.response i (res i))
            s.requestResponseMap)).isSome) = false := by
      rw [List.all_eq_false]
      refine ⟨j, hj, ?_⟩
      rw [lookupA_insertA_ne _ hji, hnone]
      simp
    have hsend : send cfg s (.response i (res i)) none =
        { s with requestResponseMap :=
            insertA i (.response i (res i)) s.requestResponseMap } := by
      simp only [send, hii]
      simp [hjson, isResponseOrError, hall]
    calc sendReplies cfg res s (i :: t)
        = sendReplies cfg res (send cfg s (.response i (res i)) none) t := rfl
      _ = sendReplies cfg res
            { s with requestResponseMap :=
                insertA i (.response i (res i)) s.requestResponseMap } t := by
          rw [hsend]
      _ = { s with requestResponseMap :=
              insertReplies res (i :: t) s.requestResponseMap } := by
          have hnone2 : lookupA j (insertA i (.response i (res i))
              s.requestResponseMap) = none := by
            rw [lookupA_insertA_ne _ hji]
            exact hnone
          exact ih
            { s with requestResponseMap :=
                insertA i (.response i (res i)) s.requestResponseMap }
            hjson (fun x hx => hlk x (List.mem_cons_of_mem _ hx)) hj
            (fun hx => hnp (List.mem_cons_of_mem _ hx)) hnone2

theorem send_complete_json (cfg : TransportOptions) (res : RequestId → String)
    (sid : StreamId) (c : Nat) (a : RequestId) (rel : List RequestId)
    (s : TransportState)
    (hjson : cfg.enableJsonResponse = true)
    (ha : lookupA a s.requestToStreamMapping = some sid)
    (hc : lookupA sid s.streamMapping = some c)
    (hrel : (s.requestToStreamMapping.filter (fun q => q.2 = sid)).map
      (fun q => q.1) = rel)
    (hready : ∀ j ∈ rel,
      lookupA j (insertA a (.response a (res a)) s.requestResponseMap) =
        some (.response j (res j))) :
    connOf (send cfg s (.response a (res a)) none) c =
      (connOf s c).map (fun conn =>
        { conn with
          status := some 200
          headers := jsonHeaders s.sessionId
          body := some (match rel.map
              (fun j => (JSONRPCMessage.response j (res j))) with
            | [r] => RespBody.jsonSingle r
            | rs => RespBody.jsonBatch rs)
          ended := true }) := by
  have hall : (rel.all (fun id =>
      (lookupA id (insertA a (.response a (res a))
        s.requestResponseMap)).isSome)) = true := by
    rw [List.all_eq_true]
    intro j hj
    rw [hready j hj]
    simp
  have hresp : rel.filterMap (fun id =>
      lookupA id (insertA a (.response a (res a)) s.requestResponseMap)) =
      rel.map (fun j => (JSONRPCMessage.response j (res j))) :=
    filterMap_lookupA_map rel _ _ hready
  simp only [send, ha, hc]
  simp [hjson, isResponseOrError, hrel, hall, hresp, connOf, updateConn,
    lookupA_mapA_self]

theorem sendReplies_split (cfg : TransportOptions) (res : RequestId → String)
    (s : TransportState) (l1 l2 : List RequestId) :
    sendReplies cfg res s (l1 ++ l2) =
      sendReplies cfg res (sendReplies cfg res s l1) l2 := by
  simp [sendReplies, List.foldl_append]

theorem sendReplies_one (cfg : TransportOptions) (res : RequestId → String)
    (s : TransportState) (a : RequestId) :
    sendReplies cfg res s [a] = send cfg s (.response a (res a)) none := rfl

/-- C6: When `enableJsonResponse` is true, a POST whose batch is any
nonempty duplicate-free list of requests is answered — once the reply for
every request id has arrived — with status 200, Content-Type
`application/json`, and a single JSON body: the bare reply object when the
batch had exactly one request, or a JSON array holding exactly one reply
per request id when it had two or more; and for every proper prefix of the
replies the response is still entirely unwritten (buffered in memory). -/
theorem json_mode_responses
    (cfg : TransportOptions) (st : TransportState) (hdr : Option String)
    (ids : List RequestId) (mth : String) (res : RequestId → String)
    (hjson : cfg.enableJsonResponse = true)
    (hsess : checkSession st hdr = none)
    (hne : ids ≠ [])
    (hnodup : ids.Nodup)
    (hmth : mth ≠ "initialize")
    (hfresh : ∀ p ∈ st.requestToStreamMapping, p.2 ≠ StreamId.post st.nextStreamNum)
    (hrrm : ∀ i ∈ ids, lookupA i st.requestResponseMap = none) :
    connOf
      (sendReplies cfg res
        (handleRequest cfg st
          (postRequest hdr (ids.map (fun i => JSONRPCMessage.request i mth)))).1 ids)
      (handleRequest cfg st
        (postRequest hdr (ids.map (fun i => JSONRPCMessage.request i mth)))).2 =
      some { status := some 200, headers := jsonHeaders st.sessionId, frames := [],
             body := some (match ids.reverse.map
                 (fun i => JSONRPCMessage.response i (res i)) with
               | [r] => RespBody.jsonSingle r
               | rs => RespBody.jsonBatch rs),
             ended := true } ∧
    ∀ done todo, ids = done ++ todo → todo ≠ [] →
      connOf
        (sendReplies cfg res
          (handleRequest cfg st
            (postRequest hdr (ids.map (fun i => JSONRPCMessage.request i mth)))).1 done)
        (handleRequest cfg st
          (postRequest hdr (ids.map (fun i => JSONRPCMessage.request i mth)))).2 =
        some ({} : Connection) := by
  have hh : checkSession
      { st with
        conns := (st.nextConnId, ({} : Connection)) :: st.conns
        nextConnId := st.nextConnId + 1 } hdr = checkSession st hdr := rfl
  have h1 : handleRequest cfg st
      (postRequest hdr (ids.map (fun i => JSONRPCMessage.request i mth))) =
      ({ st with
         conns := (st.nextConnId, ({} : Connection)) :: st.conns
         nextConnId := st.nextConnId + 1
         streamMapping :=
           insertA (StreamId.post st.nextStreamNum) st.nextConnId st.streamMapping
         requestToStreamMapping :=
           ids.foldl (fun m i => insertA i (StreamId.post st.nextStreamNum) m)
             st.requestToStreamMapping
         nextStreamNum := st.nextStreamNum + 1
         delivered := st.delivered ++ ids.map (fun i => JSONRPCMessage.request i mth) },
       st.nextConnId) := by
    simp [handleRequest, handlePost, handlePostMessages, postRequest, hh, hsess, hjson,
      any_isInit_map mth ids hmth, any_isReq_map mth ids hne,
      filterMap_requestIdOf_map, filterMap_requestIdOf_comp]
  have hrel : ((ids.foldl
        (fun m i => insertA i (StreamId.post st.nextStreamNum) m)
        st.requestToStreamMapping).filter
        (fun q => q.2 = StreamId.post st.nextStreamNum)).map (fun q => q.1) =
      ids.reverse := by
    rw [regFold (StreamId.post st.nextStreamNum) ids st.requestToStreamMapping hnodup,
      List.filter_append]
    have hmapfilter : ((ids.reverse.map
        (fun i => (i, StreamId.post st.nextStreamNum))).filter
        (fun q => q.2 = StreamId.post st.nextStreamNum)) =
        ids.reverse.map (fun i => (i, StreamId.post st.nextStreamNum)) := by
      rw [List.filter_map]
      have hpred : ((fun q => decide (q.2 = StreamId.post st.nextStreamNum)) ∘
          (fun i => (i, StreamId.post st.nextStreamNum)) :
          RequestId → Bool) = fun i => true := by
        funext i
        simp
      rw [hpred]
      simp
    have hresid : ((ids.foldl (fun m i => removeA i m)
        st.requestToStreamMapping).filter
        (fun q => q.2 = StreamId.post st.nextStreamNum)) = [] :=
      filterStream_nil _ (fun p hp =>
        hfresh p (mem_foldl_removeA ids st.requestToStreamMapping p hp))
    have hid : ((fun (q : RequestId × StreamId) => q.1) ∘
        (fun i : RequestId => (i, StreamId.post st.nextStreamNum))) = id := by
      funext i
      rfl
    rw [hmapfilter, hresid, List.append_nil, List.map_map, hid, List.map_id]
  have hlkup : ∀ i ∈ ids, lookupA i (ids.foldl
      (fun m i => insertA i (StreamId.post st.nextStreamNum) m)
      st.requestToStreamMapping) = some (StreamId.post st.nextStreamNum) := by
    intro i hi
    rw [regFold (StreamId.post st.nextStreamNum) ids st.requestToStreamMapping hnodup]
    exact lookupA_append_some _ _ _ _
      (lookupA_map_pair _ ids.reverse i (List.mem_reverse.mpr hi))
  rw [h1]
  constructor
  · -- all replies: completion
    have hids : ids = ids.dropLast ++ [ids.getLast hne] :=
      (List.dropLast_append_getLast hne).symm
    have hnodup2 := hnodup
    rw [hids] at hnodup2
    have hdisj := (List.nodup_append.mp hnodup2).2.2
    have hlast_not : ids.getLast hne ∉ ids.dropLast := fun hmem =>
      hdisj hmem (List.mem_singleton_self _)
    have hlastmem : ids.getLast hne ∈ ids := List.getLast_mem hne
    have hsplit : sendReplies cfg res
        ({ st with
           conns := (st.nextConnId, ({} : Connection)) :: st.conns
           nextConnId := st.nextConnId + 1
           streamMapping :=
             insertA (StreamId.post st.nextStreamNum) st.nextConnId st.streamMapping
           requestToStreamMapping :=
             ids.foldl (fun m i => insertA i (StreamId.post st.nextStreamNum) m)
               st.requestToStreamMapping
           nextStreamNum := st.nextStreamNum + 1
           delivered := st.delivered ++
             ids.map (fun i => JSONRPCMessage.request i mth) } : TransportState) ids =
        send cfg
          (sendReplies cfg res
            { st with
              conns := (st.nextConnId, ({} : Connection)) :: st.conns
              nextConnId := st.nextConnId + 1
              streamMapping :=
                insertA (StreamId.post st.nextStreamNum) st.nextConnId st.streamMapping
              requestToStreamMapping :=
                ids.foldl (fun m i => insertA i (StreamId.post st.nextStreamNum) m)
                  st.requestToStreamMapping
              nextStreamNum := st.nextStreamNum + 1
              delivered := st.delivered ++
                ids.map (fun i => JSONRPCMessage.request i mth) } ids.dropLast)
          (.response (ids.getLast hne) (res (ids.getLast hne))) none := by
      rw [congrArg (sendReplies cfg res _) hids,
        sendReplies_split cfg res _ ids.dropLast [ids.getLast hne],
        sendReplies_one]
    have hbuf := sendReplies_buffer cfg res (StreamId.post st.nextStreamNum)
      (ids.getLast hne) ids.dropLast
      { st with
        conns := (st.nextConnId, ({} : Connection)) :: st.conns
        nextConnId := st.nextConnId + 1
        streamMapping :=
          insertA (StreamId.post st.nextStreamNum) st.nextConnId st.streamMapping
        requestToStreamMapping :=
          ids.foldl (fun m i => insertA i (StreamId.post st.nextStreamNum) m)
            st.requestToStreamMapping
        nextStreamNum := st.nextStreamNum + 1
        delivered := st.delivered ++ ids.map (fun i => JSONRPCMessage.request i mth) }
      hjson
      (fun i hi => hlkup i (by rw [hids]; exact List.mem_append_left _ hi))
      (by rw [hrel]; exact List.mem_reverse.mpr hlastmem)
      hlast_not
      (hrrm _ hlastmem)
    have hready : ∀ j ∈ ids.reverse,
        lookupA j (insertA (ids.getLast hne)
          (.response (ids.getLast hne) (res (ids.getLast hne)))
          (insertReplies res ids.dropLast st.requestResponseMap)) =
        some (.response j (res j)) := by
      intro j hj
      have hjm : j ∈ ids := List.mem_reverse.mp hj
      rw [hids] at hjm
      rcases List.mem_append.mp hjm with hjd | hja
      · have hjne : j ≠ ids.getLast hne := fun e => hlast_not (e ▸ hjd)
        rw [lookupA_insertA_ne _ hjne]
        exact lookupA_insertReplies_mem res ids.dropLast j _ hjd
      · have hja2 : j = ids.getLast hne := List.mem_singleton.mp hja
        rw [hja2, lookupA_insertA_self]
    have hfin := send_complete_json cfg res (StreamId.post st.nextStreamNum)
      st.nextConnId (ids.getLast hne) ids.reverse
      { st with
        conns := (st.nextConnId, ({} : Connection)) :: st.conns
        nextConnId := st.nextConnId + 1
        streamMapping :=
          insertA (StreamId.post st.nextStreamNum) st.nextConnId st.streamMapping
        requestToStreamMapping :=
          ids.foldl (fun m i => insertA i (StreamId.post st.nextStreamNum) m)
            st.requestToStreamMapping
        requestResponseMap := insertReplies res ids.dropLast st.requestResponseMap
        nextStreamNum := st.nextStreamNum + 1
        delivered := st.delivered ++ ids.map (fun i => JSONRPCMessage.request i mth) }
      hjson (hlkup _ hlastmem) (lookupA_insertA_self _ _ _) hrel hready
    rw [hsplit, hbuf]
    rw [hfin]
    simp [connOf, lookupA]
  · -- proper prefix: still buffered
    intro done todo heq hne2
    cases todo with
    | nil => exact absurd rfl hne2
    | cons j t =>
      have hjmem : j ∈ ids := by
        rw [heq]
        exact List.mem_append_right _ (List.mem_cons_self _ _)
      have hnodup2 := hnodup
      rw [heq] at hnodup2
      have hjnd : j ∉ done := fun hmem =>
        (List.nodup_append.mp hnodup2).2.2 hmem (List.mem_cons_self _ _)
      have hbuf := sendReplies_buffer cfg res (StreamId.post st.nextStreamNum) j done
        { st with
          conns := (st.nextConnId, ({} : Connection)) :: st.conns
          nextConnId := st.nextConnId + 1
          streamMapping :=
            insertA (StreamId.post st.nextStreamNum) st.nextConnId st.streamMapping
          requestToStreamMapping :=
            ids.foldl (fun m i => insertA i (StreamId.post st.nextStreamNum) m)
              st.requestToStreamMapping
          nextStreamNum := st.nextStreamNum + 1
          delivered := st.delivered ++ ids.map (fun i => JSONRPCMessage.request i mth) }
        hjson
        (fun i hi => hlkup i (by rw [heq]; exact List.mem_append_left _ hi))
        (by rw [hrel]; exact List.mem_reverse.mpr hjmem)
        hjnd
        (hrrm _ hjmem)
      rw [hbuf]
      simp [connOf, lookupA]

theorem mapA_forall {α β : Type} [DecidableEq α] {P : β → Prop} {k : α} {f : β → β}
    {l : List (α × β)} (hf : ∀ x, P x → P (f x)) (h : ∀ p ∈ l, P p.2) :
    ∀ p ∈ mapA k f l, P p.2 := by
  induction l with
  | nil => simp [mapA]
  | cons q rest ih =>
    intro p hp
    simp only [mapA] at hp
    by_cases hq : q.1 = k
    · rw [if_pos hq] at hp
      rcases List.mem_cons.mp hp with h1 | h1
      · rw [h1]
        exact hf _ (h q (List.mem_cons_self _ _))
      · exact ih (fun p hp => h p (List.mem_cons_of_mem _ hp)) p h1
    · rw [if_neg hq] at hp
      rcases List.mem_cons.mp hp with h1 | h1
      · rw [h1]
        exact h q (List.mem_cons_self _ _)
      · exact ih (fun p hp => h p (List.mem_cons_of_mem _ hp)) p h1

theorem noSessHdr_sseHeaders_none :
    lookupA "mcp-session-id" (sseHeaders none) = none := by
  simp [sseHeaders, lookupA]

theorem noSessHdr_jsonHeaders_none :
    lookupA "mcp-session-id" (jsonHeaders none) = none := by
  simp [jsonHeaders, lookupA]

theorem handlePostMessages_stateless (cfg : TransportOptions) (st : TransportState)
    (c : Nat) (ms : List JSONRPCMessage)
    (hsid : st.sessionId = none)
    (hconns : ∀ p ∈ st.conns, noSessHdr p.2) :
    (handlePostMessages cfg st c ms).sessionId = none ∧
    ∀ p ∈ (handlePostMessages cfg st c ms).conns, noSessHdr p.2 := by
  unfold handlePostMessages
  split
  · refine ⟨hsid, ?_⟩
    exact mapA_forall (fun x hx => by simpa [noSessHdr] using hx) hconns
  · split
    · refine ⟨hsid, ?_⟩
      refine mapA_forall (fun x hx => ?_) hconns
      simp [noSessHdr, hsid, noSessHdr_sseHeaders_none]
    · exact ⟨hsid, hconns⟩

theorem handlePost_stateless (cfg : TransportOptions) (st : TransportState)
    (c : Nat) (req : HttpRequest)
    (hgen : cfg.sessionIdGenerator = none)
    (hsid : st.sessionId = none)
    (hconns : ∀ p ∈ st.conns, noSessHdr p.2) :
    (handlePost cfg st c req).sessionId = none ∧
    ∀ p ∈ (handlePost cfg st c req).conns, noSessHdr p.2 := by
  unfold handlePost handlePostMessages
  dsimp only
  repeat' split
  all_goals refine ⟨by simp [updateConn, hgen, hsid], ?_⟩
  all_goals
    first
    | exact hconns
    | exact mapA_forall (fun x hx => by simpa [noSessHdr, respondJsonError] using hx) hconns
    | exact mapA_forall (fun x hx => by
        simp [noSessHdr, hsid, hgen, sseHeaders, lookupA]) hconns

theorem handleGet_stateless (cfg : TransportOptions) (st : TransportState)
    (c : Nat) (req : HttpRequest)
    (hsid : st.sessionId = none)
    (hconns : ∀ p ∈ st.conns, noSessHdr p.2) :
    (handleGet cfg st c req).sessionId = none ∧
    ∀ p ∈ (handleGet cfg st c req).conns, noSessHdr p.2 := by
  unfold handleGet
  dsimp only
  repeat' split
  all_goals refine ⟨by simp [updateConn, hsid], ?_⟩
  all_goals
    first
    | exact hconns
    | exact mapA_forall (fun x hx => by simpa [noSessHdr, respondJsonError] using hx) hconns
    | exact mapA_forall (fun x hx => by
        simp [noSessHdr, hsid, sseHeaders, lookupA]) hconns

theorem handleDelete_stateless (cfg : TransportOptions) (st : TransportState)
    (c : Nat) (req : HttpRequest)
    (hsid : st.sessionId = none)
    (hconns : ∀ p ∈ st.conns, noSessHdr p.2) :
    (handleDelete cfg st c req).sessionId = none ∧
    ∀ p ∈ (handleDelete cfg st c req).conns, noSessHdr p.2 := by
  unfold handleDelete
  split
  · exact ⟨hsid, mapA_forall (fun x hx => by simpa [noSessHdr, respondJsonError] using hx) hconns⟩
  · refine ⟨rfl, ?_⟩
    intro p hp
    rcases List.mem_map.mp hp with ⟨q, hq, hpq⟩
    have hq2 := mapA_forall (P := noSessHdr)
      (fun x hx => by simpa [noSessHdr] using hx) hconns q hq
    rw [← hpq]
    simpa [noSessHdr] using hq2

theorem handleRequest_stateless (cfg : TransportOptions) (st : TransportState)
    (req : HttpRequest)
    (hgen : cfg.sessionIdGenerator = none)
    (hsid : st.sessionId = none)
    (hconns : ∀ p ∈ st.conns, noSessHdr p.2) :
    (handleRequest cfg st req).1.sessionId = none ∧
    ∀ p ∈ (handleRequest cfg st req).1.conns, noSessHdr p.2 := by
  have hconns' : ∀ p ∈ ((st.nextConnId, ({} : Connection)) :: st.conns), noSessHdr p.2 := by
    intro p hp
    rcases List.mem_cons.mp hp with h | h
    · rw [h]; simp [noSessHdr, lookupA]
    · exact hconns p h
  unfold handleRequest
  dsimp only
  repeat' split
  · exact handlePost_stateless cfg _ _ req hgen hsid hconns'
  · exact handleGet_stateless cfg _ _ req hsid hconns'
  · exact handleDelete_stateless cfg _ _ req hsid hconns'
  · refine ⟨by simp [updateConn, hsid], ?_⟩
    exact mapA_forall (fun x hx => by simp [noSessHdr, lookupA]) hconns'

theorem send_stateless (cfg : TransportOptions) (st : TransportState)
    (msg : JSONRPCMessage) (rid : Option RequestId)
    (hsid : st.sessionId = none)
    (hconns : ∀ p ∈ st.conns, noSessHdr p.2) :
    (send cfg st msg rid).sessionId = none ∧
    ∀ p ∈ (send cfg st msg rid).conns, noSessHdr p.2 := by
  unfold send
  dsimp only
  repeat' split
  all_goals refine ⟨by simp [updateConn, hsid], ?_⟩
  all_goals
    first
    | exact hconns
    | exact mapA_forall (fun x hx => by simpa [noSessHdr] using hx) hconns
    | exact mapA_forall (fun x hx => by simp [noSessHdr, hsid, jsonHeaders, lookupA]) hconns
    | exact mapA_forall (fun x hx => by simpa [noSessHdr] using hx)
        (mapA_forall (fun x hx => by simpa [noSessHdr] using hx) hconns)

theorem checkSession_hdr_irrel (st : TransportState) (hsid : st.sessionId = none)
    (h1 h2 : Option String) : checkSession st h1 = checkSession st h2 := by
  simp [checkSession, hsid]

theorem handlePost_hdr_irrel (cfg : TransportOptions) (st : TransportState) (c : Nat)
    (hsid : st.sessionId = none) (m : String) (a : List String) (ct : Bool)
    (h1 h2 : Option String) (lei : Option EventId) (b : List JSONRPCMessage) :
    handlePost cfg st c ⟨m, a, ct, h1, lei, b⟩ = handlePost cfg st c ⟨m, a, ct, h2, lei, b⟩ := by
  unfold handlePost
  dsimp only
  rw [checkSession_hdr_irrel st hsid h1 h2]

theorem handleGet_hdr_irrel (cfg : TransportOptions) (st : TransportState) (c : Nat)
    (hsid : st.sessionId = none) (m : String) (a : List String) (ct : Bool)
    (h1 h2 : Option String) (lei : Option EventId) (b : List JSONRPCMessage) :
    handleGet cfg st c ⟨m, a, ct, h1, lei, b⟩ = handleGet cfg st c ⟨m, a, ct, h2, lei, b⟩ := by
  unfold handleGet
  dsimp only
  rw [checkSession_hdr_irrel st hsid h1 h2]

theorem handleDelete_hdr_irrel (cfg : TransportOptions) (st : TransportState) (c : Nat)
    (hsid : st.sessionId = none) (m : String) (a : List String) (ct : Bool)
    (h1 h2 : Option String) (lei : Option EventId) (b : List JSONRPCMessage) :
    handleDelete cfg st c ⟨m, a, ct, h1, lei, b⟩ = handleDelete cfg st c ⟨m, a, ct, h2, lei, b⟩ := by
  unfold handleDelete
  dsimp only
  rw [checkSession_hdr_irrel st hsid h1 h2]

theorem handleRequest_hdr_irrel (cfg : TransportOptions) (st : TransportState)
    (hsid : st.sessionId = none) (m : String) (a : List String) (ct : Bool)
    (h1 h2 : Option String) (lei : Option EventId) (b : List JSONRPCMessage) :
    handleRequest cfg st ⟨m, a, ct, h1, lei, b⟩ = handleRequest cfg st ⟨m, a, ct, h2, lei, b⟩ := by
  unfold handleRequest
  dsimp only
  rw [handlePost_hdr_irrel cfg
      { st with
        conns := (st.nextConnId, ({} : Connection)) :: st.conns
        nextConnId := st.nextConnId + 1 } st.nextConnId hsid m a ct h1 h2 lei b,
    handleGet_hdr_irrel cfg
      { st with
        conns := (st.nextConnId, ({} : Connection)) :: st.conns
        nextConnId := st.nextConnId + 1 } st.nextConnId hsid m a ct h1 h2 lei b,
    handleDelete_hdr_irrel cfg
      { st with
        conns := (st.nextConnId, ({} : Connection)) :: st.conns
        nextConnId := st.nextConnId + 1 } st.nextConnId hsid m a ct h1 h2 lei b]

theorem sendMessages_standalone (cfg : TransportOptions) (ms : List JSONRPCMessage) :
    ∀ (st : TransportState) (c : Nat) (conn : Connection),
    cfg.hasEventStore = true →
    lookupA standaloneSseStreamId st.streamMapping = some c →
    connOf st c = some conn →
    (∀ m ∈ ms, isNotificationMsg m = true) →
    connOf (sendMessages cfg st ms) c =
      some { conn with
             frames := conn.frames ++
               eventFrames (mkEvents StreamId.standalone st.store.counter ms) } ∧
    (sendMessages cfg st ms).store.events =
      st.store.events ++ mkEvents StreamId.standalone st.store.counter ms ∧
    (sendMessages cfg st ms).store.counter = st.store.counter + ms.length ∧
    (sendMessages cfg st ms).streamMapping = st.streamMapping ∧
    (sendMessages cfg st ms).sessionId = st.sessionId ∧
    (sendMessages cfg st ms).initialized = st.initialized := by
  induction ms with
  | nil =>
    intro st c conn hstore hopen hconn hnotif
    simp [sendMessages, mkEvents, eventFrames, hconn]
  | cons m ms ih =>
    intro st c conn hstore hopen hconn hnotif
    have hm : isNotificationMsg m = true := hnotif m (List.mem_cons_self _ _)
    obtain ⟨s, rfl⟩ : ∃ s, m = JSONRPCMessage.notification s := by
      cases m <;> simp [isNotificationMsg] at hm
      exact ⟨_, rfl⟩
    have hopen2 : lookupA StreamId.standalone st.streamMapping = some c := hopen
    have hsend : send cfg st (.notification s) none =
        { st with
          store := ⟨st.store.events ++
            [⟨⟨StreamId.standalone, st.store.counter⟩, .notification s⟩],
            st.store.counter + 1⟩
          conns := mapA c (fun cn =>
            { cn with
              frames := cn.frames ++
                [⟨some ⟨StreamId.standalone, st.store.counter⟩, .notification s⟩] })
            st.conns } := by
      simp [send, hopen, hopen2, hstore, storeEvent, updateConn, standaloneSseStreamId]
    have hstep : sendMessages cfg st (.notification s :: ms) =
        sendMessages cfg
          { st with
            store := ⟨st.store.events ++
              [⟨⟨StreamId.standalone, st.store.counter⟩, .notification s⟩],
              st.store.counter + 1⟩
            conns := mapA c (fun cn =>
              { cn with
                frames := cn.frames ++
                  [⟨some ⟨StreamId.standalone, st.store.counter⟩, .notification s⟩] })
              st.conns } ms := by
      simp only [sendMessages, List.foldl]
      rw [hsend]
    have ihr := ih
      { st with
        store := ⟨st.store.events ++
          [⟨⟨StreamId.standalone, st.store.counter⟩, .notification s⟩],
          st.store.counter + 1⟩
        conns := mapA c (fun cn =>
          { cn with
            frames := cn.frames ++
              [⟨some ⟨StreamId.standalone, st.store.counter⟩, .notification s⟩] })
          st.conns }
      c
      { conn with
        frames := conn.frames ++
          [⟨some ⟨StreamId.standalone, st.store.counter⟩, .notification s⟩] }
      hstore
      (by simpa using hopen)
      (by
        simp only [connOf] at hconn ⊢
        simp [lookupA_mapA_self, hconn])
      (fun x hx => hnotif x (List.mem_cons_of_mem _ hx))
    refine ⟨?_, ?_, ?_, ?_, ?_, ?_⟩
    · rw [hstep, ihr.1]
      simp [mkEvents, eventFrames]
    · rw [hstep, ihr.2.1]
      simp [mkEvents]
    · rw [hstep, ihr.2.2.1]
      simp [mkEvents]
      omega
    · rw [hstep, ihr.2.2.2.1]
    · rw [hstep, ihr.2.2.2.2.1]
    · rw [hstep, ihr.2.2.2.2.2]

theorem filter_mkEvents (sid : StreamId) (ms : List JSONRPCMessage) :
    ∀ c0, (mkEvents sid c0 ms).filter (fun x => x.eventId.streamId = sid) =
      mkEvents sid c0 ms := by
  induction ms with
  | nil => intro c0; simp [mkEvents]
  | cons m ms ih => intro c0; simp [mkEvents, ih]

theorem replayEventsAfter_mkEvents (sid : StreamId) (ms : List JSONRPCMessage) :
    ∀ (c0 k : Nat), k < ms.length →
    replayEventsAfter ⟨sid, c0 + k⟩ (mkEvents sid c0 ms) =
      some (sid, eventPairs (mkEvents sid (c0 + k + 1) (ms.drop (k + 1)))) := by
  induction ms with
  | nil => intro c0 k h; simp at h
  | cons m ms ih =>
    intro c0 k hk
    cases k with
    | zero =>
      simp only [mkEvents, replayEventsAfter, Nat.add_zero, if_pos rfl]
      rw [filter_mkEvents sid ms (c0 + 1)]
      simp [eventPairs]
    | succ k' =>
      have hne : ¬ ((⟨⟨sid, c0⟩, m⟩ : StoredEvent).eventId = ⟨sid, c0 + (k' + 1)⟩) := by
        simp only [EventId.mk.injEq]
        intro h
        omega
      simp only [mkEvents, replayEventsAfter, if_neg hne]
      have hrec := ih (c0 + 1) k' (by simpa using hk)
      have harith : c0 + 1 + k' = c0 + (k' + 1) := by omega
      rw [harith] at hrec
      rw [hrec]
      have harith2 : c0 + 1 + k' + 1 = c0 + (k' + 1) + 1 := by omega
      simp [harith2]

theorem mkEvents_seq_ge (sid : StreamId) (ms : List JSONRPCMessage) :
    ∀ c0, ∀ e ∈ mkEvents sid c0 ms, c0 ≤ e.eventId.seq := by
  induction ms with
  | nil => intro c0 e he; simp [mkEvents] at he
  | cons m ms ih =>
    intro c0 e he
    rcases List.mem_cons.mp he with h | h
    · rw [h]
    · exact Nat.le_of_succ_le (ih (c0 + 1) e h)

theorem mkEvents_pairwise (sid : StreamId) (ms : List JSONRPCMessage) :
    ∀ c0, (mkEvents sid c0 ms).Pairwise (fun a b => a.eventId ≠ b.eventId) := by
  induction ms with
  | nil => intro c0; simp [mkEvents]
  | cons m ms ih =>
    intro c0
    refine List.Pairwise.cons ?_ (ih (c0 + 1))
    intro e he heq
    have := mkEvents_seq_ge sid ms (c0 + 1) e he
    rw [← heq] at this
    simp at this

theorem map_eventPairs (es : List StoredEvent) :
    (eventPairs es).map (fun p => (⟨some p.1, p.2⟩ : Frame)) = eventFrames es := by
  simp [eventPairs, eventFrames, List.map_map]

/-- C7: When the session id generator yields nothing (stateless mode), no
response produced by dispatching a request or by `send` ever carries an
`mcp-session-id` header, the transport never acquires a session id, and
dispatching is entirely independent of the `mcp-session-id` header value a
request carries — requests differing only in that header produce identical
transport states, so arbitrary or absent session ids are accepted with the
same results. -/
theorem stateless_mode_no_session
    (cfg : TransportOptions) (st : TransportState)
    (hgen : cfg.sessionIdGenerator = none)
    (hsid : st.sessionId = none)
    (hconns : ∀ p ∈ st.conns, noSessHdr p.2) :
    (∀ req, (handleRequest cfg st req).1.sessionId = none ∧
      ∀ p ∈ (handleRequest cfg st req).1.conns, noSessHdr p.2) ∧
    (∀ msg rid, (send cfg st msg rid).sessionId = none ∧
      ∀ p ∈ (send cfg st msg rid).conns, noSessHdr p.2) ∧
    (∀ m a ct h1 h2 lei b,
      handleRequest cfg st ⟨m, a, ct, h1, lei, b⟩ =
        handleRequest cfg st ⟨m, a, ct, h2, lei, b⟩) :=
  ⟨fun req => handleRequest_stateless cfg st req hgen hsid hconns,
   fun msg rid => send_stateless cfg st msg rid hsid hconns,
   fun m a ct h1 h2 lei b => handleRequest_hdr_irrel cfg st hsid m a ct h1 h2 lei b⟩

theorem lookupA_filter_conn_none (k : StreamId) (c : Nat)
    (l : List (StreamId × Nat))
    (h : ∀ p ∈ l, p.1 = k → p.2 = c) :
    lookupA k (l.filter (fun p => p.2 ≠ c)) = none := by
  induction l with
  | nil => rfl
  | cons q t ih =>
    have ht : ∀ p ∈ t, p.1 = k → p.2 = c := fun p hp => h p (List.mem_cons_of_mem _ hp)
    have hrec := ih ht
    by_cases hq : q.2 = c
    · simpa [List.filter_cons, hq] using hrec
    · have hqk : ¬ (q.1 = k) := fun e => hq (h q (List.mem_cons_self _ _) e)
      simp [List.filter_cons, hq, lookupA, hqk]
      simpa using hrec

theorem handleGet_replay (cfg : TransportOptions) (s : TransportState)
    (hdr : Option String) (lid : EventId) (sid : StreamId)
    (pairs : List (EventId × JSONRPCMessage))
    (hstore : cfg.hasEventStore = true)
    (hsess : checkSession s hdr = none)
    (hfree : lookupA standaloneSseStreamId s.streamMapping = none)
    (hreplay : replayEventsAfter lid s.store.events = some (sid, pairs)) :
    connOf (handleRequest cfg s (getRequest hdr (some lid))).1
      (handleRequest cfg s (getRequest hdr (some lid))).2 =
      some { status := some 200, headers := sseHeaders s.sessionId,
             frames := pairs.map (fun p => ⟨some p.1, p.2⟩), body := none,
             ended := false } ∧
    lookupA sid (handleRequest cfg s (getRequest hdr (some lid))).1.streamMapping =
      some s.nextConnId ∧
    (handleRequest cfg s (getRequest hdr (some lid))).1.store = s.store := by
  have hh : checkSession
      { s with
        conns := (s.nextConnId, ({} : Connection)) :: s.conns
        nextConnId := s.nextConnId + 1 } hdr = checkSession s hdr := rfl
  refine ⟨?_, ?_, ?_⟩ <;>
    simp [handleRequest, handleGet, getRequest, hstore, hh, hsess, hfree, hreplay,
      connOf, updateConn, mapA, lookupA, lookupA_insertA_self]

/-- C2: With an event store configured, every frame written on the standalone
GET stream carries an `id:` field equal to the event id returned by
`storeEvent`, those ids are pairwise distinct, and — after the client
disconnects, freeing the standalone slot — a later GET that passes the
session check and presents the id of the k-th frame in the `last-event-id`
header is answered with exactly the frames written after that event on the
standalone stream, in original order and with the original event ids —
every later frame and nothing earlier — while the store itself gains no new
event during replay. -/
theorem event_replay_roundtrip
    (cfg : TransportOptions) (st : TransportState) (c : Nat) (conn : Connection)
    (ms : List JSONRPCMessage) (k : Nat) (hdr : Option String)
    (hstore : cfg.hasEventStore = true)
    (hopen : lookupA standaloneSseStreamId st.streamMapping = some c)
    (huniq : ∀ p ∈ st.streamMapping, p.1 = standaloneSseStreamId → p.2 = c)
    (hconn : connOf st c = some conn)
    (hempty : st.store = ⟨[], 0⟩)
    (hnotif : ∀ m ∈ ms, isNotificationMsg m = true)
    (hk : k < ms.length)
    (hsess : checkSession st hdr = none) :
    connOf (sendMessages cfg st ms) c =
      some { conn with
             frames := conn.frames ++ eventFrames (mkEvents StreamId.standalone 0 ms) } ∧
    (sendMessages cfg st ms).store.events = mkEvents StreamId.standalone 0 ms ∧
    (mkEvents StreamId.standalone 0 ms).Pairwise (fun a b => a.eventId ≠ b.eventId) ∧
    connOf
      (handleRequest cfg (clientDisconnect (sendMessages cfg st ms) c)
        (getRequest hdr (some ⟨StreamId.standalone, k⟩))).1
      (handleRequest cfg (clientDisconnect (sendMessages cfg st ms) c)
        (getRequest hdr (some ⟨StreamId.standalone, k⟩))).2 =
      some { status := some 200, headers := sseHeaders st.sessionId,
             frames := eventFrames (mkEvents StreamId.standalone (k + 1) (ms.drop (k + 1))),
             body := none, ended := false } ∧
    lookupA standaloneSseStreamId
      (handleRequest cfg (clientDisconnect (sendMessages cfg st ms) c)
        (getRequest hdr (some ⟨StreamId.standalone, k⟩))).1.streamMapping =
      some (clientDisconnect (sendMessages cfg st ms) c).nextConnId ∧
    (handleRequest cfg (clientDisconnect (sendMessages cfg st ms) c)
      (getRequest hdr (some ⟨StreamId.standalone, k⟩))).1.store =
      (clientDisconnect (sendMessages cfg st ms) c).store := by
  have hcnt : st.store.counter = 0 := by rw [hempty]
  have hevs : st.store.events = [] := by rw [hempty]
  have L := sendMessages_standalone cfg ms st c conn hstore hopen hconn hnotif
  rw [hcnt] at L
  have hevents : (sendMessages cfg st ms).store.events =
      mkEvents StreamId.standalone 0 ms := by
    rw [L.2.1, hevs]
    simp
  have hreplay : replayEventsAfter ⟨StreamId.standalone, k⟩
      (sendMessages cfg st ms).store.events =
      some (StreamId.standalone,
        eventPairs (mkEvents StreamId.standalone (k + 1) (ms.drop (k + 1)))) := by
    rw [hevents]
    have := replayEventsAfter_mkEvents StreamId.standalone ms 0 k hk
    simpa using this
  have hsid1 : (sendMessages cfg st ms).sessionId = st.sessionId := L.2.2.2.2.1
  have hinit1 : (sendMessages cfg st ms).initialized = st.initialized := L.2.2.2.2.2
  have hmap1 : (sendMessages cfg st ms).streamMapping = st.streamMapping := L.2.2.2.1
  have hsess2 : checkSession (clientDisconnect (sendMessages cfg st ms) c) hdr = none := by
    unfold checkSession at hsess ⊢
    rw [show (clientDisconnect (sendMessages cfg st ms) c).initialized =
          st.initialized from hinit1,
      show (clientDisconnect (sendMessages cfg st ms) c).sessionId =
          st.sessionId from hsid1]
    exact hsess
  have hfree : lookupA standaloneSseStreamId
      (clientDisconnect (sendMessages cfg st ms) c).streamMapping = none := by
    show lookupA standaloneSseStreamId
      ((sendMessages cfg st ms).streamMapping.filter (fun p => p.2 ≠ c)) = none
    rw [hmap1]
    exact lookupA_filter_conn_none standaloneSseStreamId c st.streamMapping huniq
  have hreplay2 : replayEventsAfter ⟨StreamId.standalone, k⟩
      (clientDisconnect (sendMessages cfg st ms) c).store.events =
      some (StreamId.standalone,
        eventPairs (mkEvents StreamId.standalone (k + 1) (ms.drop (k + 1)))) := hreplay
  have R := handleGet_replay cfg (clientDisconnect (sendMessages cfg st ms) c) hdr
    ⟨StreamId.standalone, k⟩ StreamId.standalone
    (eventPairs (mkEvents StreamId.standalone (k + 1) (ms.drop (k + 1))))
    hstore hsess2 hfree hreplay2
  have hsid2 : (clientDisconnect (sendMessages cfg st ms) c).sessionId =
      st.sessionId := hsid1
  rw [hsid2, map_eventPairs] at R
  exact ⟨L.1, hevents, mkEvents_pairwise _ _ _, R.1, R.2.1, R.2.2⟩

/-- C9: The standalone GET stream's stream id is the sentinel rendering as
the literal string `"standalonesse"` (not `"_GET_stream"`): every event id
produced by `storeEvent` for a message written on the standalone stream
carries that sentinel as its stream-id component, so its reference string
form is `"standalonesse"` followed by an underscore and the unique suffix,
and parsing it recovers the sentinel. -/
theorem standalone_sentinel
    (cfg : TransportOptions) (st : TransportState) (c : Nat) (conn : Connection)
    (msg : JSONRPCMessage)
    (hstore : cfg.hasEventStore = true)
    (hopen : lookupA standaloneSseStreamId st.streamMapping = some c)
    (hconn : connOf st c = some conn)
    (hmsg : isNotificationMsg msg = true) :
    standaloneSseStreamId = StreamId.standalone ∧
    StreamId.render standaloneSseStreamId = "standalonesse" ∧
    connOf (send cfg st msg none) c =
      some { conn with
             frames := conn.frames ++
               [⟨some ⟨StreamId.standalone, st.store.counter⟩, msg⟩] } ∧
    (∀ e ∈ (send cfg st msg none).store.events,
      e ∈ st.store.events ∨ e.eventId.streamId = standaloneSseStreamId) ∧
    EventId.render ⟨StreamId.standalone, st.store.counter⟩ =
      "standalonesse" ++ "_" ++ toString st.store.counter := by
  obtain ⟨s, rfl⟩ : ∃ s, msg = JSONRPCMessage.notification s := by
    cases msg <;> simp [isNotificationMsg] at hmsg
    exact ⟨_, rfl⟩
  have hopen2 : lookupA StreamId.standalone st.streamMapping = some c := hopen
  refine ⟨rfl, rfl, ?_, ?_, rfl⟩
  · simp only [connOf] at hconn ⊢
    simp [send, hopen, hopen2, hstore, storeEvent, updateConn, standaloneSseStreamId,
      lookupA_mapA_self, hconn]
  · intro e he
    simp [send, hopen, hopen2, hstore, storeEvent, updateConn,
      standaloneSseStreamId] at he
    rcases he with h | h
    · exact Or.inl h
    · right
      rw [h]
      rfl

theorem send_response_on_own_stream_witness :
    lookupA "req-1" stTwoPosts.requestToStreamMapping = some (StreamId.post 1) ∧
    lookupA (StreamId.post 1) stTwoPosts.streamMapping = some 1 ∧
    connOf (send cfgSse stTwoPosts (.response "req-1" "ok") none) 1 =
      some { wConnSse with frames := [⟨none, .response "req-1" "ok"⟩], ended := true } ∧
    connOf (send cfgSse stTwoPosts (.response "req-1" "ok") none) 2 = connOf stTwoPosts 2 ∧
    lookupA "req-1"
      (send cfgSse stTwoPosts (.response "req-1" "ok") none).requestToStreamMapping =
      none := by
  have h := send_response_on_own_stream cfgSse stTwoPosts "req-1" "ok"
    (StreamId.post 1) 1 wConnSse rfl rfl rfl rfl (by decide)
  exact ⟨rfl, rfl, h.1, h.2.1 2 (by decide), h.2.2.1⟩

theorem event_replay_roundtrip_witness :
    cfgStore.hasEventStore = true ∧
    lookupA standaloneSseStreamId stStoreGet.streamMapping = some 1 ∧
    stStoreGet.store = ⟨[], 0⟩ ∧
    checkSession stStoreGet (some "sess1") = none ∧
    connOf (sendMessages cfgStore stStoreGet wNotifs) 1 =
      some { wConnSse with
             frames := eventFrames (mkEvents StreamId.standalone 0 wNotifs) } ∧
    connOf
      (handleRequest cfgStore
        (clientDisconnect (sendMessages cfgStore stStoreGet wNotifs) 1)
        (getRequest (some "sess1") (some ⟨StreamId.standalone, 0⟩))).1
      (handleRequest cfgStore
        (clientDisconnect (sendMessages cfgStore stStoreGet wNotifs) 1)
        (getRequest (some "sess1") (some ⟨StreamId.standalone, 0⟩))).2 =
      some { status := some 200, headers := sseHeaders (some "sess1"),
             frames := eventFrames (mkEvents StreamId.standalone 1 [.notification "n2"]),
             body := none, ended := false } := by
  have h := event_replay_roundtrip cfgStore stStoreGet 1 wConnSse wNotifs 0
    (some "sess1") rfl rfl (by decide) rfl rfl (by decide) (by decide) rfl
  exact ⟨rfl, rfl, rfl, rfl, h.1, h.2.2.2.1⟩

theorem second_get_conflict_witness :
    lookupA standaloneSseStreamId stStatelessGet.streamMapping = some 1 ∧
    checkSession stStatelessGet none = none ∧
    respOf cfgStateless stStatelessGet (getRequest none none) =
      some (errConn 409 (-32000) "Only one SSE stream is allowed per session") ∧
    (handleRequest cfgStateless stStatelessGet (getRequest none none)).1.streamMapping =
      stStatelessGet.streamMapping := by
  have h := second_get_conflict cfgStateless stStatelessGet none 1 rfl rfl
  exact ⟨rfl, rfl, h.1, h.2⟩

theorem session_validation_errors_witness :
    stInit.initialized = true ∧
    stInit.sessionId = some "sess1" ∧
    respOf cfgSse stInit (postRequest none [.request "t1" "tools/list"]) =
      some (errConn 400 (-32000) "Bad Request") ∧
    respOf cfgSse stInit (postRequest (some "wrong") [.request "t1" "tools/list"]) =
      some (errConn 404 (-32001) "Session not found") ∧
    respOf cfgSse stInit (getRequest none none) =
      some (errConn 400 (-32000) "Bad Request") ∧
    respOf cfgSse stInit (getRequest (some "wrong") none) =
      some (errConn 404 (-32001) "Session not found") ∧
    respOf cfgSse stInit (deleteRequest none) =
      some (errConn 400 (-32000) "Bad Request") ∧
    respOf cfgSse stInit (deleteRequest (some "wrong")) =
      some (errConn 404 (-32001) "Session not found") := by
  have h := session_validation_errors cfgSse stInit "sess1" "wrong"
    [.request "t1" "tools/list"] rfl rfl (by decide) (by decide)
  exact ⟨rfl, rfl, h.1, h.2.1, h.2.2.1, h.2.2.2.1, h.2.2.2.2.1, h.2.2.2.2.2⟩

theorem second_initialize_rejected_witness :
    stInit.initialized = true ∧
    respOf cfgSse stInit (postRequest (some "sess1") [.request "init-2" "initialize"]) =
      some (errConn 400 (-32600) "Server already initialized") ∧
    (handleRequest cfgSse stInit
      (postRequest (some "sess1") [.request "init-2" "initialize"])).1.sessionId =
      stInit.sessionId := by
  have h := second_initialize_rejected cfgSse stInit (some "sess1")
    [.request "init-2" "initialize"] rfl (by decide)
  exact ⟨rfl, h.1, h.2.1⟩

theorem json_mode_responses_witness :
    cfgJson.enableJsonResponse = true ∧
    checkSession stJson (some "sess1") = none ∧
    connOf
      (sendReplies cfgJson wRes
        (handleRequest cfgJson stJson
          (postRequest (some "sess1")
            (["a1"].map (fun i => JSONRPCMessage.request i "tools/list")))).1 ["a1"])
      (handleRequest cfgJson stJson
        (postRequest (some "sess1")
          (["a1"].map (fun i => JSONRPCMessage.request i "tools/list")))).2 =
      some { status := some 200, headers := jsonHeaders (some "sess1"), frames := [],
             body := some (.jsonSingle (.response "a1" (wRes "a1"))), ended := true } ∧
    connOf
      (sendReplies cfgJson wRes
        (handleRequest cfgJson stJson
          (postRequest (some "sess1")
            (["a1", "b2"].map (fun i => JSONRPCMessage.request i "tools/list")))).1
        ["a1", "b2"])
      (handleRequest cfgJson stJson
        (postRequest (some "sess1")
          (["a1", "b2"].map (fun i => JSONRPCMessage.request i "tools/list")))).2 =
      some { status := some 200, headers := jsonHeaders (some "sess1"), frames := [],
             body := some (.jsonBatch [.response "b2" (wRes "b2"),
               .response "a1" (wRes "a1")]),
             ended := true } ∧
    connOf
      (sendReplies cfgJson wRes
        (handleRequest cfgJson stJson
          (postRequest (some "sess1")
            (["a1", "b2"].map (fun i => JSONRPCMessage.request i "tools/list")))).1
        ["a1"])
      (handleRequest cfgJson stJson
        (postRequest (some "sess1")
          (["a1", "b2"].map (fun i => JSONRPCMessage.request i "tools/list")))).2 =
      some ({} : Connection) := by
  have h1 := json_mode_responses cfgJson stJson (some "sess1") ["a1"] "tools/list" wRes
    rfl rfl (by decide) (by decide) (by decide) (by decide) (by decide)
  have h2 := json_mode_responses cfgJson stJson (some "sess1") ["a1", "b2"]
    "tools/list" wRes rfl rfl (by decide) (by decide) (by decide) (by decide)
    (by decide)
  exact ⟨rfl, rfl, h1.1, h2.1, h2.2 ["a1"] ["b2"] rfl (by decide)⟩

theorem stateless_mode_no_session_witness :
    cfgStateless.sessionIdGenerator = none ∧
    stStateless.sessionId = none ∧
    (handleRequest cfgStateless stStateless
      (postRequest (some "random-id-1") [.request "t1" "tools/list"])).1.sessionId =
      none ∧
    (∀ p ∈ (handleRequest cfgStateless stStateless
        (postRequest (some "random-id-1") [.request "t1" "tools/list"])).1.conns,
      noSessHdr p.2) ∧
    handleRequest cfgStateless stStateless
        ⟨"POST", ["application/json", "text/event-stream"], true, some "random-id-1",
         none, [.request "t1" "tools/list"]⟩ =
      handleRequest cfgStateless stStateless
        ⟨"POST", ["application/json", "text/event-stream"], true, some "different-id-2",
         none, [.request "t1" "tools/list"]⟩ := by
  have h := stateless_mode_no_session cfgStateless stStateless rfl rfl (by decide)
  refine ⟨rfl, rfl, (h.1 _).1, (h.1 _).2, ?_⟩
  exact h.2.2 "POST" ["application/json", "text/event-stream"] true
    (some "random-id-1") (some "different-id-2") none [.request "t1" "tools/list"]

theorem notifications_only_202_witness :
    checkSession stInit (some "sess1") = none ∧
    respOf cfgSse stInit (postRequest (some "sess1") wNotifs) =
      some { status := some 202, headers := [], frames := [], body := some .empty,
             ended := true } ∧
    (handleRequest cfgSse stInit (postRequest (some "sess1") wNotifs)).1.delivered =
      stInit.delivered ++ wNotifs ∧
    (handleRequest cfgSse stInit (postRequest (some "sess1") wNotifs)).1.streamMapping =
      stInit.streamMapping := by
  have h := notifications_only_202 cfgSse stInit (some "sess1") wNotifs (by decide)
    (by decide) rfl
  exact ⟨rfl, h.1, h.2.1, h.2.2.1⟩

theorem standalone_sentinel_witness :
    standaloneSseStreamId = StreamId.standalone ∧
    StreamId.render standaloneSseStreamId = "standalonesse" ∧
    connOf (send cfgStore stStoreGet (.notification "x") none) 1 =
      some { wConnSse with
             frames := [⟨some ⟨StreamId.standalone, 0⟩, .notification "x"⟩] } ∧
    EventId.render ⟨StreamId.standalone, 0⟩ = "standalonesse" ++ "_" ++ toString 0 := by
  have h := standalone_sentinel cfgStore stStoreGet 1 wConnSse (.notification "x")
    rfl rfl rfl (by decide)
  exact ⟨h.1, h.2.1, h.2.2.1, h.2.2.2.2⟩

theorem stateless_get_without_header_witness :
    stStateless.initialized = true ∧
    stStateless.sessionId = none ∧
    lookupA standaloneSseStreamId stStateless.streamMapping = none ∧
    respOf cfgStateless stStateless (getRequest none none) =
      some { status := some 200, headers := sseHeaders none, frames := [], body := none,
             ended := false } ∧
    lookupA standaloneSseStreamId
      (handleRequest cfgStateless stStateless (getRequest none none)).1.streamMapping =
      some 1 := by
  have h := stateless_get_without_header cfgStateless stStateless rfl rfl rfl
  exact ⟨rfl, rfl, rfl, h.1, h.2⟩
